import Mathlib

/-!
Verification of the phlex hierarchical dataflow engine's record model and
registration layer, shallowly embedded from the C++ sources
(src/phlex/model/product_store.cpp, src/phlex/model/products.cpp,
src/phlex/core/declared_output.cpp, src/plugins/python/src/modulewrap.cpp,
and the test algorithms under src/test/).
-/

namespace phlex

/-- The `stage` enumeration of `phlex::experimental` (`stage::process`,
`stage::flush`), used by `product_store`. -/
inductive stage : Type where
  | process : stage
  | flush : stage
deriving DecidableEq, Repr

/-- Modelled from the spec: `phlex/model/level_id.hpp` is not under src/.
Spec section 3: "Level ID: an ordered path [(n0,name0), (n1,name1), ...] rooted at
an empty path. Supports depth(), number(), level_name(), make_child(n, name)". -/
structure level_id : Type where
  path : List (Nat × String)
deriving DecidableEq, Repr

/-- Modelled from the spec: the depth of a level id is the length of its path
(the spec's "depth = parent.depth + 1 unless this is the root" with the root
the empty path). -/
def level_id.depth (i : level_id) : Nat := i.path.length

/-- Modelled from the spec: `number()` is the last component's index. -/
def level_id.number (i : level_id) : Nat := ((i.path.getLast?).map Prod.fst).getD 0

/-- Modelled from the spec: `level_name()` is the last component's name
(empty for the root path). -/
def level_id.level_name (i : level_id) : String := ((i.path.getLast?).map Prod.snd).getD ""

/-- Modelled from the spec: `make_child(n, name)` extends the path by one
component. -/
def level_id.make_child (i : level_id) (n : Nat) (name : String) : level_id :=
  ⟨i.path ++ [(n, name)]⟩

/-- The product container of `src/phlex/model/products.cpp`: a map from product
name to product.  Only the key set is relevant to `products::contains`
(products.cpp:8-11), so the container is embedded by its list of names; the
opaque product values play no role in any operation verified here. -/
structure products : Type where
  names : List String
deriving DecidableEq, Repr

/-- `products::contains` (src/phlex/model/products.cpp:8-11): key membership. -/
def products.contains (ps : products) (n : String) : Bool := ps.names.contains n

/-- A `product_store` (src/phlex/model/product_store.cpp): parent link (null for
a root store), level id, source label, stage, and product container.  The C++
nullable `parent_` pointer is embedded as two constructors: `root` (parent
null) and `child` (parent present). -/
inductive product_store : Type where
  | root (id : level_id) (source : String) (st : stage) (prods : products)
  | child (parent : product_store) (id : level_id) (source : String) (st : stage)
      (prods : products)
deriving DecidableEq, Repr

/-- The `parent_` member (null embedded as `none`). -/
def product_store.parent : product_store → Option product_store
  | .root _ _ _ _ => none
  | .child p _ _ _ _ => some p

/-- The `id_` member (`product_store::id`, product_store.cpp:112). -/
def product_store.id : product_store → level_id
  | .root i _ _ _ => i
  | .child _ i _ _ _ => i

/-- The `source_` member (`product_store::source`, product_store.cpp:110). -/
def product_store.source : product_store → String
  | .root _ s _ _ => s
  | .child _ _ s _ _ => s

/-- The `stage_` member. -/
def product_store.stage_ : product_store → stage
  | .root _ _ st _ => st
  | .child _ _ _ st _ => st

/-- The `products_` member. -/
def product_store.products_ : product_store → products
  | .root _ _ _ ps => ps
  | .child _ _ _ _ ps => ps

/-- The `product_store` constructor with explicit parent, id, source, stage and
products (product_store.cpp:13-24); the C++ nullable parent pointer is an
`Option` here. -/
def product_store.mk (parent : Option product_store) (id : level_id) (source : String)
    (st : stage) (prods : products) : product_store :=
  match parent with
  | none => .root id source st prods
  | some p => .child p id source st prods

@[simp]
theorem product_store.mk_parent (po : Option product_store) (i : level_id) (src : String)
    (st : stage) (ps : products) : (product_store.mk po i src st ps).parent = po := by
  cases po <;> rfl

@[simp]
theorem product_store.mk_id (po : Option product_store) (i : level_id) (src : String)
    (st : stage) (ps : products) : (product_store.mk po i src st ps).id = i := by
  cases po <;> rfl

@[simp]
theorem product_store.mk_source (po : Option product_store) (i : level_id) (src : String)
    (st : stage) (ps : products) : (product_store.mk po i src st ps).source = src := by
  cases po <;> rfl

@[simp]
theorem product_store.mk_stage (po : Option product_store) (i : level_id) (src : String)
    (st : stage) (ps : products) : (product_store.mk po i src st ps).stage_ = st := by
  cases po <;> rfl

@[simp]
theorem product_store.mk_products (po : Option product_store) (i : level_id) (src : String)
    (st : stage) (ps : products) : (product_store.mk po i src st ps).products_ = ps := by
  cases po <;> rfl

/-- `product_store::level_name` (product_store.cpp:109): `id_->level_name()`. -/
def product_store.level_name (s : product_store) : String := s.id.level_name

/-- `product_store::is_flush` (product_store.cpp:113): `stage_ == stage::flush`. -/
def product_store.is_flush (s : product_store) : Bool := s.stage_ == stage.flush

/-- `product_store::contains_product` (product_store.cpp:115-118):
`products_.contains(product_name)`. -/
def product_store.contains_product (s : product_store) (n : String) : Bool :=
  s.products_.contains n

/-- `product_store::make_flush` (product_store.cpp:79-82): a new store with the
same parent and id, source `"[inserted]"` and stage flush.  The products
argument is the constructor's default (an empty container; the header is not
under src/, and the spec states a flush marker carries no products). -/
def product_store.make_flush (s : product_store) : product_store :=
  product_store.mk s.parent s.id "[inserted]" stage.flush ⟨[]⟩

/-- `product_store::make_continuation` (product_store.cpp:84-89): a new store
with the same parent and id, the given source and products, and stage
`stage::process`. -/
def product_store.make_continuation (s : product_store) (source : String)
    (new_products : products) : product_store :=
  product_store.mk s.parent s.id source stage.process new_products

/-- `product_store::make_child` (product_store.cpp:91-98, via the constructor at
product_store.cpp:26-37): parent is this store, id is
`parent->id()->make_child(n, name)`, stage is `stage::process`. -/
def product_store.make_child (s : product_store) (new_level_number : Nat)
    (new_level_name : String) (source : String) (new_products : products) : product_store :=
  product_store.mk (some s) (s.id.make_child new_level_number new_level_name) source
    stage.process new_products

/-- The chain of stores from a store to the root, following `parent_` links
(the store itself first).  This is the path walked by
`product_store::store_for_product`. -/
def product_store.chain : product_store → List product_store
  | s@(.root _ _ _ _) => [s]
  | s@(.child p _ _ _ _) => s :: product_store.chain p

/-- The proper ancestors of a store (its parent chain, excluding itself),
nearest first.  This is the path walked by `product_store::parent(level_name)`. -/
def product_store.ancestors : product_store → List product_store
  | .root _ _ _ _ => []
  | .child p _ _ _ _ => product_store.chain p

/-- The search loop shared by `product_store::parent(level_name)`
(product_store.cpp:55-65): starting from a store, return it if its level name
matches, else continue at its parent. -/
def product_store.find_from : product_store → String → Option product_store
  | s@(.root _ _ _ _), nm => if s.level_name == nm then some s else none
  | s@(.child p _ _ _ _), nm =>
    if s.level_name == nm then some s else product_store.find_from p nm

/-- `product_store::parent(std::string const&)` (product_store.cpp:55-65): walk
the ancestors starting at `parent_`, returning the first whose level name
matches, null if none does. -/
def product_store.parent_level (s : product_store) (level_name : String) :
    Option product_store :=
  match s with
  | .root _ _ _ _ => none
  | .child p _ _ _ _ => product_store.find_from p level_name

/-- `product_store::store_for_product` (product_store.cpp:67-77): walk from the
store itself to the root, returning the first store containing the product,
null if none does. -/
def product_store.store_for_product : product_store → String → Option product_store
  | s@(.root _ _ _ _), n => if s.contains_product n then some s else none
  | s@(.child p _ _ _ _), n =>
    if s.contains_product n then some s else product_store.store_for_product p n

/-- `more_derived` (product_store.cpp:120-126): returns the first store when its
id is strictly deeper, the second otherwise. -/
def more_derived (a b : product_store) : product_store :=
  if a.id.depth > b.id.depth then a else b

theorem store_for_product_eq_find (s : product_store) (n : String) :
    s.store_for_product n = s.chain.find? (fun t => t.contains_product n) := by
  induction s with
  | root i src st ps =>
    cases h : (product_store.root i src st ps).contains_product n <;>
      simp [product_store.store_for_product, product_store.chain, List.find?, h]
  | child p i src st ps ih =>
    cases h : (product_store.child p i src st ps).contains_product n <;>
      simp [product_store.store_for_product, product_store.chain, List.find?, h, ih]

theorem find_from_eq_find (s : product_store) (nm : String) :
    s.find_from nm = s.chain.find? (fun t => t.level_name == nm) := by
  induction s with
  | root i src st ps =>
    cases h : (product_store.root i src st ps).level_name == nm <;>
      simp [product_store.find_from, product_store.chain, List.find?, h]
  | child p i src st ps ih =>
    cases h : (product_store.child p i src st ps).level_name == nm <;>
      simp [product_store.find_from, product_store.chain, List.find?, h, ih]

/-- Claim C5: for every product store `s` and product name `n`,
`store_for_product` returns the first store on the chain from `s` itself up to
the root whose own product container contains `n`, and returns null exactly
when no store on that chain contains `n`. -/
theorem store_for_product_spec (s : product_store) (n : String) :
    s.store_for_product n = s.chain.find? (fun t => t.contains_product n) ∧
    (s.store_for_product n = none ↔ ∀ t ∈ s.chain, t.contains_product n = false) := by
  refine ⟨store_for_product_eq_find s n, ?_⟩
  rw [store_for_product_eq_find s n, List.find?_eq_none]
  simp

/-- Claim C6: for every product store `s` and level name `L`, `parent(L)`
returns the first proper ancestor of `s` (starting at its parent, excluding `s`
itself) whose level name equals `L`, and returns null exactly when no ancestor
matches. -/
theorem parent_level_spec (s : product_store) (nm : String) :
    s.parent_level nm = s.ancestors.find? (fun t => t.level_name == nm) ∧
    (s.parent_level nm = none ↔ ∀ t ∈ s.ancestors, t.level_name ≠ nm) := by
  have key : s.parent_level nm = s.ancestors.find? (fun t => t.level_name == nm) := by
    cases s with
    | root i src st ps => simp [product_store.parent_level, product_store.ancestors]
    | child p i src st ps =>
      simp [product_store.parent_level, product_store.ancestors, find_from_eq_find]
  refine ⟨key, ?_⟩
  rw [key, List.find?_eq_none]
  simp

/-- Claim C3: for every product store `s`, `make_flush` yields a store that is a
flush store, has the same id and the same parent as `s`, and contains no
products. -/
theorem make_flush_spec (s : product_store) (n : String) :
    s.make_flush.is_flush = true ∧ s.make_flush.id = s.id ∧
    s.make_flush.parent = s.parent ∧ s.make_flush.contains_product n = false := by
  refine ⟨?_, ?_, ?_, ?_⟩ <;>
    simp [product_store.make_flush, product_store.is_flush, product_store.contains_product,
      products.contains]

/-- Claim C2 (counterexample): it is not the case that `make_continuation`
always preserves the stage of the original store: starting from a flush store,
the continuation's stage is `process`, not `flush`. -/
theorem make_continuation_claim_false :
    ¬ (∀ (s : product_store) (src : String) (ps : products),
        (s.make_continuation src ps).id = s.id ∧
        (s.make_continuation src ps).parent = s.parent ∧
        (s.make_continuation src ps).stage_ = s.stage_) := by
  intro h
  have h2 := (h (product_store.root ⟨[]⟩ "s" stage.flush ⟨[]⟩) "t" ⟨[]⟩).2.2
  exact absurd h2 (by decide)

/-- Claim C2 (amended): for every product store `s`, source label and product
set, `make_continuation` returns a store with the same id and the same parent
as `s`, and with stage `process` (hence equal to `s`'s stage exactly when `s`
is a process-stage store). -/
theorem make_continuation_spec (s : product_store) (src : String) (ps : products) :
    (s.make_continuation src ps).id = s.id ∧
    (s.make_continuation src ps).parent = s.parent ∧
    (s.make_continuation src ps).stage_ = stage.process := by
  refine ⟨?_, ?_, ?_⟩ <;> simp [product_store.make_continuation]

/-- Claim C7: for every product store `s`, number `n`, level name `L`, source
label and product set, the child store has id `s.id.make_child n L` (so its
depth is `s`'s depth plus one), parent `s`, and stage `process`. -/
theorem make_child_spec (s : product_store) (n : Nat) (nm : String) (src : String)
    (ps : products) :
    (s.make_child n nm src ps).id = s.id.make_child n nm ∧
    (s.make_child n nm src ps).id.depth = s.id.depth + 1 ∧
    (s.make_child n nm src ps).parent = some s ∧
    (s.make_child n nm src ps).stage_ = stage.process := by
  refine ⟨?_, ?_, ?_, ?_⟩ <;>
    simp [product_store.make_child, level_id.make_child, level_id.depth]

/-- Claim C10: `more_derived a b` is `a` when the depth of `a`'s id is strictly
greater than the depth of `b`'s id and `b` otherwise; in particular, at equal
depths it returns the second argument `b`. -/
theorem more_derived_spec (a b : product_store) :
    more_derived a b = (if a.id.depth > b.id.depth then a else b) ∧
    (a.id.depth = b.id.depth → more_derived a b = b) := by
  refine ⟨rfl, fun h => ?_⟩
  simp [more_derived, h]

/-- Witness for claim C10's theorem at two concrete depth-one stores of equal
depth: `more_derived` returns the second. -/
theorem more_derived_spec_witness :
    more_derived (product_store.root ⟨[(0, "run")]⟩ "a" stage.process ⟨[]⟩)
        (product_store.root ⟨[(1, "run")]⟩ "b" stage.process ⟨[]⟩) =
      product_store.root ⟨[(1, "run")]⟩ "b" stage.process ⟨[]⟩ :=
  (more_derived_spec (product_store.root ⟨[(0, "run")]⟩ "a" stage.process ⟨[]⟩)
    (product_store.root ⟨[(1, "run")]⟩ "b" stage.process ⟨[]⟩)).2 rfl

/-- Modelled from the spec: the `message` type (`phlex/core/message.hpp` is not
under src/); spec section 4.H: "a message is an immutable handle to a product
store plus the producer's short source name".  Only the `store` member is read
by `declared_output` (declared_output.cpp:22-23). -/
structure message : Type where
  store : product_store
  source : String

/-- The body of the tbb function node built in `declared_output`'s constructor
(src/phlex/core/declared_output.cpp:21-26): `if (not msg.store->is_flush())
f(*msg.store); return continue_msg{};`.  The first component records whether
the user-supplied output function `f` was invoked and its result; the second
is the continue message that is always returned (the node completes and
forwards regardless). -/
def declared_output_body {α : Type} (f : product_store → α) (msg : message) :
    Option α × Bool :=
  if !msg.store.is_flush then (some (f msg.store), true) else (none, true)

/-- Claim C4: for every message delivered to an output node, the user-supplied
output function is invoked (on the message's store) if and only if the store is
not a flush store; a flush message is forwarded (the continue message is
returned) without the user callable being invoked. -/
theorem declared_output_body_spec {α : Type} (f : product_store → α) (msg : message) :
    ((declared_output_body f msg).1 = some (f msg.store) ↔ msg.store.is_flush = false) ∧
    ((declared_output_body f msg).1 = none ↔ msg.store.is_flush = true) ∧
    (declared_output_body f msg).2 = true := by
  cases h : msg.store.is_flush <;> simp [declared_output_body, h]

/-- `provide_i` from `src/test/python/source.cpp:9`:
`id.number() % 2` as an int.  The data cell index (whose header is not under
src/) enters only through its non-negative `number()`, embedded as a `Nat`. -/
def provide_i (id : Nat) : Int := Int.ofNat (id % 2)

/-- `provide_j` from `src/test/python/source.cpp:11-12`:
`1 - (int)(id.number() % 2)`. -/
def provide_j (id : Nat) : Int := 1 - Int.ofNat (id % 2)

/-- Modelled from the spec: `test::add` (test/plugins/add.hpp is not under
src/); spec section 8 scenario 2: "Transform add(i,j)→sum returns i+j". -/
def add (i j : Int) : Int := i + j

/-- The assertion condition of the `"verify"` observer registered in
`src/test/plugins/module.cpp:13-15`: `assert(actual == 0)`. -/
def verify_condition (actual : Int) : Bool := actual == 0

/-- Claim C1 (evaluation at the failing inputs): for every cell index, the sum
delivered by `add` over `provide_i` and `provide_j` is 1, so the `"verify"`
observer's assertion `actual == 0` fails on every cell — contradicting the
spec's expectation of 10 assertion passes and 0 failures. -/
theorem two_input_join_assertion_fails (id : Nat) :
    add (provide_i id) (provide_j id) = 1 ∧
    verify_condition (add (provide_i id) (provide_j id)) = false := by
  have h : add (provide_i id) (provide_j id) = 1 := by
    unfold add provide_i provide_j
    omega
  refine ⟨h, ?_⟩
  rw [h]
  rfl

/-- `plus_one` (src/test/benchmarks/plus_one.cpp:6): `i + 1`. -/
def plus_one (i : Int) : Int := i + 1

/-- `plus_101` (src/test/benchmarks/plus_101.cpp:6): `i + 101`. -/
def plus_101 (i : Int) : Int := i + 101

/-- Claim C8: `plus_one` returns `a + 1` and `plus_101` returns `a + 101` for
every integer input, and over source values 0..9 the sink observes exactly the
pairs (1,101), (2,102), …, (10,110). -/
theorem plus_one_plus_101_spec :
    (∀ a : Int, plus_one a = a + 1 ∧ plus_101 a = a + 101) ∧
    (List.range 10).map (fun i => (plus_one (Int.ofNat i), plus_101 (Int.ofNat i))) =
      [(1, 101), (2, 102), (3, 103), (4, 104), (5, 105), (6, 106), (7, 107), (8, 108),
        (9, 109), (10, 110)] :=
  ⟨fun a => ⟨rfl, rfl⟩, by decide⟩

/-- The return entry of a callable's ordered `__annotations__` dictionary
(src/plugins/python/src/modulewrap.cpp:817-819): the value keyed `"return"`,
when present.  The dictionary is embedded as an ordered association list from
entry name to the textual C++ type of the annotation. -/
def ann_return (ann : List (String × String)) : Option String :=
  (ann.find? (fun kv => kv.1 == "return")).map (fun kv => kv.2)

/-- The input-type entries of the annotations dictionary
(modulewrap.cpp:826-836): all entries except `"return"`, in order. -/
def ann_input_types (ann : List (String × String)) : List String :=
  (ann.filter (fun kv => kv.1 != "return")).map (fun kv => kv.2)

/-- The `output_types` vector computed by `parse_args`
(modulewrap.cpp:817-819 and 840-842): the return annotation if present, with a
sole `"None"` entry cleared as Python's conventional void return. -/
def output_types_of (ann : List (String × String)) : List String :=
  let ts := match ann_return ann with
    | some t => [t]
    | none => []
  if ts = ["None"] then [] else ts

/-- The data `parse_args` (modulewrap.cpp:739-868) hands back to its callers on
success. -/
structure parsed_args : Type where
  input_labels : List String
  input_types : List String
  output_labels : List String
  output_types : List String
  functor_name : String
deriving DecidableEq, Repr

/-- `parse_args` (modulewrap.cpp:739-868), embedded over the Python-level
arguments: `callable_ok` stands for `callable && PyCallable_Check(callable)`,
`has_input` for a non-null `input` argument, and the annotations dictionary
for `__annotations__` (the CPython object layer is evaluated away; non-serial
concurrency and non-sequence arguments, which also fail, are outside this
embedding).  Failure paths, in source order: the callable check, the missing
input check, the more-than-one-output check (modulewrap.cpp:796-799), and the
input-count/annotation-count mismatch check (modulewrap.cpp:845-853).  `none`
is the C++ `nullptr` return with a Python error set. -/
def parse_args (callable_ok has_input : Bool) (functor_name : String)
    (input_labels output_labels : List String) (ann : List (String × String)) :
    Option parsed_args :=
  if callable_ok = false then none
  else if has_input = false then none
  else if output_labels.length > 1 then none
  else if (ann_input_types ann).length ≠ input_labels.length then none
  else some ⟨input_labels, ann_input_types ann, output_labels, output_types_of ann,
    functor_name⟩

/-- The result of a Python-side registration call: a set Python error
(`nullptr` return) or a completed registration. -/
inductive reg_result : Type where
  | error : String → reg_result
  | registered : parsed_args → reg_result
deriving DecidableEq, Repr

/-- Whether a registration call failed with an error. -/
def reg_result.isError : reg_result → Bool
  | .error _ => true
  | .registered _ => false

/-- `md_observe` (modulewrap.cpp:1104-1149): parse the arguments, reject a
non-empty output-type list ("an observer should not have an output type"),
insert the input converters, then register a 1-, 2- or 3-input observer.  The
converter insertion (`insert_input_converters`, modulewrap.cpp:870-963, which
fails on unsupported input types) is abstracted as the predicate
`converters_ok` on the input labels and types; it runs only after the checks
this development verifies. -/
def md_observe (callable_ok has_input : Bool) (functor_name : String)
    (input_labels output_labels : List String) (ann : List (String × String))
    (converters_ok : List String → List String → Bool) : reg_result :=
  match parse_args callable_ok has_input functor_name input_labels output_labels ann with
  | none => .error "parse_args failed"
  | some p =>
    if p.output_types ≠ [] then .error "an observer should not have an output type"
    else if converters_ok p.input_labels p.input_types = false then
      .error "unsupported input type"
    else if p.input_labels.length = 1 ∨ p.input_labels.length = 2 ∨
        p.input_labels.length = 3 then .registered p
    else .error "unsupported number of inputs"

/-- `md_transform` (modulewrap.cpp:965-1113): parse the arguments, reject an
empty output-type list ("a transform should have an output type"), insert the
input converters, register a 1-, 2- or 3-input transform, then insert the
output converter.  As in `md_observe`, the input-converter insertion is
abstracted as `converters_ok`, and the output-converter type dispatch
(modulewrap.cpp:1020-1102, which fails on unsupported output types) as
`out_converter_ok` on the single output type. -/
def md_transform (callable_ok has_input : Bool) (functor_name : String)
    (input_labels output_labels : List String) (ann : List (String × String))
    (converters_ok : List String → List String → Bool)
    (out_converter_ok : String → Bool) : reg_result :=
  match parse_args callable_ok has_input functor_name input_labels output_labels ann with
  | none => .error "parse_args failed"
  | some p =>
    if p.output_types = [] then .error "a transform should have an output type"
    else if converters_ok p.input_labels p.input_types = false then
      .error "unsupported input type"
    else if ¬ (p.input_labels.length = 1 ∨ p.input_labels.length = 2 ∨
        p.input_labels.length = 3) then .error "unsupported number of inputs"
    else if out_converter_ok (p.output_types.headD "") = false then
      .error "unsupported output type"
    else .registered p

theorem parse_args_some_output_types {co hi : Bool} {fn : String}
    {il ol : List String} {ann : List (String × String)} {p : parsed_args}
    (h : parse_args co hi fn il ol ann = some p) :
    p.output_types = output_types_of ann := by
  unfold parse_args at h
  repeat' split at h
  all_goals simp_all
  exact (congrArg parsed_args.output_types h.symm)

/-- Claim C9: Python algorithm registration enforces the typed-callable
contract: an observer whose annotations yield a non-None return type fails;
a transform whose annotations yield no output type (no return annotation, or a
None one) fails; and both registrations fail when the number of annotated
input types differs from the number of declared input labels. -/
theorem python_registration_spec (co hi : Bool) (fn : String) (il ol : List String)
    (ann : List (String × String)) (cok : List String → List String → Bool)
    (ook : String → Bool) :
    ((∃ ret, ann_return ann = some ret ∧ ret ≠ "None") →
      (md_observe co hi fn il ol ann cok).isError = true) ∧
    (output_types_of ann = [] →
      (md_transform co hi fn il ol ann cok ook).isError = true) ∧
    ((ann_input_types ann).length ≠ il.length →
      (md_observe co hi fn il ol ann cok).isError = true ∧
      (md_transform co hi fn il ol ann cok ook).isError = true) := by
  refine ⟨?_, ?_, ?_⟩
  · rintro ⟨ret, hret, hne⟩
    have hot : output_types_of ann ≠ [] := by
      unfold output_types_of
      rw [hret]
      simp [hne]
    unfold md_observe
    cases hp : parse_args co hi fn il ol ann with
    | none => rfl
    | some p =>
      have := parse_args_some_output_types hp
      simp [reg_result.isError, this, hot]
  · intro hot
    unfold md_transform
    cases hp : parse_args co hi fn il ol ann with
    | none => rfl
    | some p =>
      have := parse_args_some_output_types hp
      simp [reg_result.isError, this, hot]
  · intro hmis
    have hp : parse_args co hi fn il ol ann = none := by
      unfold parse_args
      repeat' split
      all_goals simp_all
    constructor
    · unfold md_observe
      rw [hp]
      rfl
    · unfold md_transform
      rw [hp]
      rfl

/-- Witness for claim C9's theorem at concrete registrations: an observer
annotated with an int return is rejected, a transform with no return
annotation is rejected, and an observer whose one annotated input type has no
matching input label is rejected. -/
theorem python_registration_spec_witness :
    (md_observe true true "f" ["x"] ["b"] [("x", "int"), ("return", "int")]
        (fun _ _ => true)).isError = true ∧
    (md_transform true true "g" ["x"] ["b"] [("x", "int")] (fun _ _ => true)
        (fun _ => true)).isError = true ∧
    (md_observe true true "h" [] [] [("x", "int")] (fun _ _ => true)).isError = true :=
  ⟨(python_registration_spec true true "f" ["x"] ["b"] [("x", "int"), ("return", "int")]
      (fun _ _ => true) (fun _ => true)).1 ⟨"int", by decide, by decide⟩,
   (python_registration_spec true true "g" ["x"] ["b"] [("x", "int")]
      (fun _ _ => true) (fun _ => true)).2.1 (by decide),
   ((python_registration_spec true true "h" [] [] [("x", "int")]
      (fun _ _ => true) (fun _ => true)).2.2 (by decide)).1⟩

end phlex
